import Mathlib

/-!
Verification of the login UI test framework.

Shallow embedding of the repository's Python sources:
  * src/utils/config.py          — process-wide constants
  * src/pages/base_page.py       — page interaction layer (waits, click, type, read)
  * src/pages/login_page.py      — login page object (login, logout, queries)
  * src/utils/driver_factory.py  — driver bootstrap, teardown, screenshot

The browser is modelled as an environment (`World`): a family of pages, each
giving, at every instant of a wait, the list of elements a locator resolves
to.  Python exceptions are modelled with `Except`; a raised exception leaves
side effects performed so far in place, so a computation is a function
`St → Except Err α × St` — the state survives an error, exactly as in Python.
Time inside one wait call is local to the call: the wait samples the DOM at
instants 0, 1, 2, … up to its timeout.
-/

/-- Exceptions raised by the embedded code. -/
inductive Err
  | noSuchElement
  | timeout
  | notInteractable
  | launchFailed
  | allMethodsFailed
  | notFunctional
  | unsupportedBrowser (n : String)
  | safariNotSupported
deriving DecidableEq

/-- Locator strategies (selenium's `By`). -/
inductive By
  | id
  | xpath
  | cssSelector
  | className
  | name
  | tagName
  | linkText
  | partialLinkText
deriving DecidableEq

/-- A locator is a (strategy, selector string) pair. -/
abbrev Locator := By × String

/-- A DOM element as observed through the driver: its tag and class (used by
the XPath error patterns), visibility/enabled/selected state, text, attribute
table, whether interacting with it succeeds, and the page the browser shows
after it is clicked. -/
structure Elem where
  tag : String
  className : String
  displayed : Bool
  enabled : Bool
  selected : Bool
  text : String
  attr : String → String
  interactOk : Bool
  afterClick : Nat

/-- The DOM of one page.  `elemsAt t loc` is the driver's answer to locator
`loc` at instant `t` of a wait; `allElemsAt t` is the whole document, used by
the semantic interpretation of the fixed XPath error patterns;
`readyAt t` is whether `document.readyState == "complete"`. -/
structure PageData where
  elemsAt : Nat → Locator → List Elem
  allElemsAt : Nat → List Elem
  readyAt : Nat → Bool

/-- The browser environment: a family of pages indexed by page id. -/
structure World where
  page : Nat → PageData

/-- Side effects recorded by the interaction layer. -/
inductive Event
  | click (e : Elem)
  | clear (e : Elem)
  | sendKeys (e : Elem) (text : String)

/-- Mutable driver state threaded through the page objects: the current page
id and the trace of performed actions. -/
structure St where
  pg : Nat
  events : List Event

/-- Sequencing with exception propagation: Python's ordinary statement
sequencing, where an exception aborts the rest but keeps prior effects. -/
def mbind {α β : Type} (r : Except Err α × St) (f : α → St → Except Err β × St) :
    Except Err β × St :=
  match r with
  | (.ok a, st) => f a st
  | (.error e, st) => (.error e, st)

/-- Substring test (Python's `in` on strings). -/
def containsStr (s pat : String) : Bool :=
  decide (List.IsInfix pat.toList s.toList)

/-- Python's `str.lower()` (ASCII). -/
def str_lower (s : String) : String := ⟨s.data.map Char.toLower⟩

/-- Python's `str.strip()`: remove leading and trailing whitespace. -/
def str_strip (s : String) : String :=
  ⟨((s.data.dropWhile fun c => c.isWhitespace).reverse.dropWhile
      fun c => c.isWhitespace).reverse⟩

namespace Config

/-- src/utils/config.py: `EXPLICIT_WAIT = int(os.getenv('EXPLICIT_WAIT', '20'))`,
at the default environment. -/
def EXPLICIT_WAIT : Nat := 20

/-- src/utils/config.py: `IMPLICIT_WAIT = int(os.getenv('IMPLICIT_WAIT', '10'))`. -/
def IMPLICIT_WAIT : Nat := 10

/-- src/utils/config.py: `DEFAULT_BROWSER = os.getenv('BROWSER', 'firefox')`. -/
def DEFAULT_BROWSER : String := "firefox"

end Config

/-! Locators of src/pages/login_page.py (class attributes of `LoginPage`). -/

def USERNAME_INPUT : Locator := (By.xpath, "//input[@name=\x22username\x22]")

def PASSWORD_INPUT : Locator := (By.xpath, "//input[@type=\x22password\x22]")

def LOGIN_BUTTON : Locator := (By.xpath, "//*[@id=\x22augmentedButton-1047\x22]")

def REMEMBER_ME_CHECKBOX : Locator := (By.xpath, "//*[@id=\x22ext-gen1197\x22]")

def NOTIFICATION_MESSAGE : Locator := (By.xpath, "//*[@id=\x22ext-gen1174\x22]")

def PRODUCT_LOGO : Locator := (By.xpath, "//*[@id=\x22productLogoView-1021\x22]")

def LOGOUT_BUTTON : Locator := (By.xpath, "//*[@id=\x22ext-gen1929\x22]")

def LOGOUT_SECOND_BUTTON : Locator := (By.xpath, "//*[@id=\x22simpleLink-1486\x22]")

/-! The fixed XPath error patterns of `LoginPage.is_error_message_displayed`
(src/pages/login_page.py lines 180-187). -/

def errPatClassError : String := "//div[contains(@class, \x27error\x27)]"

def errPatClassAlert : String := "//div[contains(@class, \x27alert\x27)]"

def errPatSpanError : String := "//span[contains(@class, \x27error\x27)]"

def errPatTextInvalid : String := "//*[contains(text(), \x27Invalid\x27)]"

def errPatTextIncorrect : String := "//*[contains(text(), \x27incorrect\x27)]"

def errPatTextFailed : String := "//*[contains(text(), \x27failed\x27)]"

/-- src/pages/login_page.py lines 180-187: the `error_patterns` list. -/
def error_patterns : List String :=
  [errPatClassError, errPatClassAlert, errPatSpanError,
   errPatTextInvalid, errPatTextIncorrect, errPatTextFailed]

/-- Semantic interpretation of the six fixed XPath error patterns over the
whole document; all other locators are answered by the environment. -/
def interpKnownXPath (es : List Elem) (loc : Locator) : Option (List Elem) :=
  match loc with
  | (By.xpath, p) =>
    if p = errPatClassError then
      some (es.filter fun e => e.tag == "div" && containsStr e.className "error")
    else if p = errPatClassAlert then
      some (es.filter fun e => e.tag == "div" && containsStr e.className "alert")
    else if p = errPatSpanError then
      some (es.filter fun e => e.tag == "span" && containsStr e.className "error")
    else if p = errPatTextInvalid then
      some (es.filter fun e => containsStr e.text "Invalid")
    else if p = errPatTextIncorrect then
      some (es.filter fun e => containsStr e.text "incorrect")
    else if p = errPatTextFailed then
      some (es.filter fun e => containsStr e.text "failed")
    else none
  | _ => none

/-- The driver primitive `driver.find_elements(*locator)` at instant `t`:
returns the (possibly empty) list of matching elements, never raises. -/
def driver_find_elements (w : World) (pg t : Nat) (loc : Locator) : List Elem :=
  match interpKnownXPath ((w.page pg).allElemsAt t) loc with
  | some es => es
  | none => (w.page pg).elemsAt t loc

/-! ## src/pages/base_page.py — the interaction layer -/

/-- `BasePage.find_element` (lines 119-135): `driver.find_element(*locator)`
returns the first match and raises `NoSuchElementException` when there is
none; the `except` block logs and re-raises. -/
def find_element (w : World) (loc : Locator) (st : St) : Except Err Elem × St :=
  match driver_find_elements w st.pg 0 loc with
  | [] => (.error .noSuchElement, st)
  | e :: _ => (.ok e, st)

/-- `BasePage.find_elements` (lines 137-153): returns the list of matches. -/
def find_elements (w : World) (loc : Locator) (st : St) : Except Err (List Elem) × St :=
  (.ok (driver_find_elements w st.pg 0 loc), st)

/-- `element.clear()`: raises when the element cannot be interacted with. -/
def elem_clear (e : Elem) (st : St) : Except Err Unit × St :=
  if e.interactOk then (.ok (), ⟨st.pg, st.events ++ [.clear e]⟩)
  else (.error .notInteractable, st)

/-- `element.send_keys(text)`. -/
def elem_send_keys (e : Elem) (text : String) (st : St) : Except Err Unit × St :=
  if e.interactOk then (.ok (), ⟨st.pg, st.events ++ [.sendKeys e text]⟩)
  else (.error .notInteractable, st)

/-- `element.click()`: on success the browser moves to the element's
after-click page. -/
def elem_click (e : Elem) (st : St) : Except Err Unit × St :=
  if e.interactOk then (.ok (), ⟨e.afterClick, st.events ++ [.click e]⟩)
  else (.error .notInteractable, st)

/-- `EC.visibility_of_element_located(locator)` sampled at instant `s`:
the first match if it is displayed. -/
def visible_now (w : World) (pg s : Nat) (loc : Locator) : Option Elem :=
  match driver_find_elements w pg s loc with
  | [] => none
  | e :: _ => if e.displayed then some e else none

/-- `EC.element_to_be_clickable(locator)` sampled at instant `s`:
the first match if it is displayed and enabled. -/
def clickable_now (w : World) (pg s : Nat) (loc : Locator) : Option Elem :=
  match driver_find_elements w pg s loc with
  | [] => none
  | e :: _ => if e.displayed && e.enabled then some e else none

/-- `EC.presence_of_element_located(locator)` sampled at instant `s`. -/
def present_now (w : World) (pg s : Nat) (loc : Locator) : Option Elem :=
  match driver_find_elements w pg s loc with
  | [] => none
  | e :: _ => some e

/-- First instant within `timeout` at which the sampled condition yields an
element; the element found there.  This is `WebDriverWait(driver, t).until(c)`
with the DOM sampled at every instant up to the timeout. -/
def first_hit (check : Nat → Option Elem) (timeout : Nat) : Option Elem :=
  (List.range (timeout + 1)).findSome? check

/-- `BasePage.wait_for_element_visible` (lines 47-69): a `None` timeout
defaults to `Config.EXPLICIT_WAIT`; `TimeoutException` is logged and
re-raised. -/
def wait_for_element_visible (w : World) (loc : Locator) (timeout : Option Nat)
    (st : St) : Except Err Elem × St :=
  let t := timeout.getD Config.EXPLICIT_WAIT
  match first_hit (fun s => visible_now w st.pg s loc) t with
  | some e => (.ok e, st)
  | none => (.error .timeout, st)

/-- `BasePage.wait_for_element_clickable` (lines 71-93). -/
def wait_for_element_clickable (w : World) (loc : Locator) (timeout : Option Nat)
    (st : St) : Except Err Elem × St :=
  let t := timeout.getD Config.EXPLICIT_WAIT
  match first_hit (fun s => clickable_now w st.pg s loc) t with
  | some e => (.ok e, st)
  | none => (.error .timeout, st)

/-- `BasePage.wait_for_element_present` (lines 95-117). -/
def wait_for_element_present (w : World) (loc : Locator) (timeout : Option Nat)
    (st : St) : Except Err Elem × St :=
  let t := timeout.getD Config.EXPLICIT_WAIT
  match first_hit (fun s => present_now w st.pg s loc) t with
  | some e => (.ok e, st)
  | none => (.error .timeout, st)

/-- `BasePage.wait_for_page_load` (lines 267-280): waits for
`document.readyState == "complete"`; the Python default timeout is 30; a
`TimeoutException` is caught and only a warning is logged — both outcomes
return normally. -/
def wait_for_page_load (w : World) (timeout : Nat) (st : St) :
    Except Err Unit × St :=
  if (List.range (timeout + 1)).any (fun s => (w.page st.pg).readyAt s) then
    (.ok (), st)
  else
    (.ok (), st)

/-- `BasePage.click_element` (lines 155-169): wait clickable, then click;
the `except` logs and re-raises. -/
def click_element (w : World) (loc : Locator) (timeout : Option Nat) (st : St) :
    Except Err Unit × St :=
  mbind (wait_for_element_clickable w loc timeout st) fun e st1 =>
    elem_click e st1

/-- `BasePage.enter_text` (lines 171-189): wait visible, optionally clear
(`clear_first` defaults to `True` in the source), then send the text. -/
def enter_text (w : World) (loc : Locator) (text : String) (clear_first : Bool)
    (timeout : Option Nat) (st : St) : Except Err Unit × St :=
  mbind (wait_for_element_visible w loc timeout st) fun e st1 =>
    if clear_first then
      mbind (elem_clear e st1) fun _ st2 => elem_send_keys e text st2
    else
      elem_send_keys e text st1

/-- `BasePage.get_text` (lines 191-209): wait visible, then read `.text`. -/
def get_text (w : World) (loc : Locator) (timeout : Option Nat) (st : St) :
    Except Err String × St :=
  mbind (wait_for_element_visible w loc timeout st) fun e st1 =>
    (.ok e.text, st1)

/-- `BasePage.get_attribute` (lines 211-230): wait visible, then read the
attribute. -/
def get_attribute (w : World) (loc : Locator) (attribute_name : String)
    (timeout : Option Nat) (st : St) : Except Err String × St :=
  mbind (wait_for_element_visible w loc timeout st) fun e st1 =>
    (.ok (e.attr attribute_name), st1)

/-! ## src/pages/login_page.py — the login page object -/

/-- `LoginPage.is_element_present` (lines 40-54): `find_element` wrapped in a
catch-all, returning a boolean. -/
def is_element_present (w : World) (loc : Locator) (st : St) :
    Except Err Bool × St :=
  match find_element w loc st with
  | (.ok _, st1) => (.ok true, st1)
  | (.error _, st1) => (.ok false, st1)

/-- `LoginPage.enter_username` (lines 69-83): find the username field, clear
it, type the username; the `except` logs and re-raises. -/
def enter_username (w : World) (username : String) (st : St) :
    Except Err Unit × St :=
  mbind (find_element w USERNAME_INPUT st) fun e st1 =>
    mbind (elem_clear e st1) fun _ st2 =>
      elem_send_keys e username st2

/-- `LoginPage.enter_password` (lines 85-99). -/
def enter_password (w : World) (password : String) (st : St) :
    Except Err Unit × St :=
  mbind (find_element w PASSWORD_INPUT st) fun e st1 =>
    mbind (elem_clear e st1) fun _ st2 =>
      elem_send_keys e password st2

/-- `LoginPage.click_login_button` (lines 101-109): find it, click it; the
`except` logs and re-raises. -/
def click_login_button (w : World) (st : St) : Except Err Unit × St :=
  mbind (find_element w LOGIN_BUTTON st) fun e st1 =>
    elem_click e st1

/-- `LoginPage.click_remember_me` (lines 111-120): click the checkbox if it
exists; every failure is caught and only logged as a warning. -/
def click_remember_me (w : World) (st : St) : Except Err Unit × St :=
  let body :=
    mbind (is_element_present w REMEMBER_ME_CHECKBOX st) fun present st1 =>
      if present then click_element w REMEMBER_ME_CHECKBOX none st1
      else (.ok (), st1)
  match body with
  | (.ok _, st1) => (.ok (), st1)
  | (.error _, st1) => (.ok (), st1)

/-- The `try: wait visible; return True / except: return False` idiom used by
`login` (marker check) and `logout` (username-field check). -/
def check_visible_bool (w : World) (loc : Locator) (timeout : Option Nat)
    (st : St) : Except Err Bool × St :=
  match wait_for_element_visible w loc timeout st with
  | (.ok _, st1) => (.ok true, st1)
  | (.error _, st1) => (.ok false, st1)

/-- `LoginPage.login` (lines 261-294): fill both fields, optionally toggle
remember-me, click the login button, sleep a fixed settle delay (absorbed
into the environment), then report whether `PRODUCT_LOGO` becomes visible
within 10; only the marker check is guarded by a `try`. -/
def login (w : World) (username password : String) (remember_me : Bool)
    (st : St) : Except Err Bool × St :=
  mbind (enter_username w username st) fun _ st1 =>
    mbind (enter_password w password st1) fun _ st2 =>
      mbind (if remember_me then click_remember_me w st2 else (.ok (), st2))
        fun _ st3 =>
          mbind (click_login_button w st3) fun _ st4 =>
            check_visible_bool w PRODUCT_LOGO (some 10) st4

/-- `LoginPage.logout` (lines 296-329): click the first logout control, wait
for and click the second, then report whether the username field becomes
visible within 10; the whole body is guarded, every failure yields `False`. -/
def logout (w : World) (st : St) : Except Err Bool × St :=
  let body :=
    mbind (find_element w LOGOUT_BUTTON st) fun e1 st1 =>
      mbind (elem_click e1 st1) fun _ st2 =>
        mbind (wait_for_element_visible w LOGOUT_SECOND_BUTTON (some 10) st2)
          fun e2 st3 =>
            mbind (elem_click e2 st3) fun _ st4 =>
              check_visible_bool w USERNAME_INPUT (some 10) st4
  match body with
  | (.ok b, st1) => (.ok b, st1)
  | (.error _, st1) => (.ok false, st1)

/-- `LoginPage.get_error_message` (lines 133-147): the notification element's
text, or the empty string when it cannot be read. -/
def get_error_message (w : World) (st : St) : Except Err String × St :=
  match find_element w NOTIFICATION_MESSAGE st with
  | (.ok e, st1) => (.ok e.text, st1)
  | (.error _, st1) => (.ok "", st1)

/-- `LoginPage.is_error_message_displayed` (lines 164-200), inner logic:
first the designated notification element, then the fixed pattern scan. -/
def is_error_message_displayed_body (w : World) (st : St) :
    Except Err Bool × St :=
  let scan (st1 : St) : Except Err Bool × St :=
    (.ok (error_patterns.any fun p =>
      (driver_find_elements w st1.pg 0 (By.xpath, p)).any fun e =>
        e.displayed && str_strip e.text != ""), st1)
  mbind (is_element_present w NOTIFICATION_MESSAGE st) fun present st1 =>
    if present then
      mbind (find_element w NOTIFICATION_MESSAGE st1) fun e st2 =>
        if e.displayed && str_strip e.text != "" then (.ok true, st2)
        else scan st2
    else scan st1

/-- `LoginPage.is_error_message_displayed` (lines 164-200): the body wrapped
in a catch-all returning `False`. -/
def is_error_message_displayed (w : World) (st : St) : Except Err Bool × St :=
  match is_error_message_displayed_body w st with
  | (.ok b, st1) => (.ok b, st1)
  | (.error _, st1) => (.ok false, st1)

/-- Success keywords of `LoginPage.is_success_message_displayed`. -/
def success_keywords : List String :=
  ["success", "welcome", "login successful", "logged in"]

/-- `LoginPage.is_success_message_displayed` (lines 202-216). -/
def is_success_message_displayed (w : World) (st : St) : Except Err Bool × St :=
  let body :=
    mbind (find_element w NOTIFICATION_MESSAGE st) fun e st1 =>
      (.ok (e.displayed &&
        success_keywords.any fun k => containsStr (str_lower (str_strip e.text)) k), st1)
  match body with
  | (.ok b, st1) => (.ok b, st1)
  | (.error _, st1) => (.ok false, st1)

/-- `LoginPage.get_username_field_value` (lines 345-357). -/
def get_username_field_value (w : World) (st : St) : Except Err String × St :=
  match find_element w USERNAME_INPUT st with
  | (.ok e, st1) => (.ok (e.attr "value"), st1)
  | (.error _, st1) => (.ok "", st1)

/-- `LoginPage.get_password_field_value` (lines 359-371). -/
def get_password_field_value (w : World) (st : St) : Except Err String × St :=
  match find_element w PASSWORD_INPUT st with
  | (.ok e, st1) => (.ok (e.attr "value"), st1)
  | (.error _, st1) => (.ok "", st1)

/-- `LoginPage.is_login_form_displayed` (lines 373-389): all three form
elements found and displayed; any failure yields `False`. -/
def is_login_form_displayed (w : World) (st : St) : Except Err Bool × St :=
  let body :=
    mbind (find_element w USERNAME_INPUT st) fun u st1 =>
      mbind (find_element w PASSWORD_INPUT st1) fun p st2 =>
        mbind (find_element w LOGIN_BUTTON st2) fun b st3 =>
          (.ok (u.displayed && p.displayed && b.displayed), st3)
  match body with
  | (.ok b, st1) => (.ok b, st1)
  | (.error _, st1) => (.ok false, st1)

/-- `LoginPage.is_logged_in` (lines 408-424): the product logo is found and
displayed; any failure yields `False`. -/
def is_logged_in (w : World) (st : St) : Except Err Bool × St :=
  match find_element w PRODUCT_LOGO st with
  | (.ok e, st1) => (.ok e.displayed, st1)
  | (.error _, st1) => (.ok false, st1)

/-! ## src/utils/driver_factory.py — driver bootstrap and teardown -/

/-- The supported browser kinds. -/
inductive BrowserKind
  | chrome
  | firefox
  | edge
  | safari
deriving DecidableEq

/-- A session handle: an open browser process of a given kind. -/
structure Handle where
  kind : BrowserKind
  id : Nat
deriving DecidableEq

/-- Environment determining the outcome of each Chrome launch strategy of
`DriverFactory._create_chrome_driver`: for each strategy, the id of the
launched process, or `none` when that strategy raises; plus whether the smoke
navigation to `about:blank` succeeds for a given process. -/
structure ChromeEnv where
  managed1 : Option Nat
  managedAfterCacheClear : Option Nat
  systemDriver : Option Nat
  managedMinimal : Option Nat
  navOk : Nat → Bool

/-- Steps observable during `_create_chrome_driver`. -/
inductive ChromeStep
  | tryManaged
  | clearCacheRetry
  | trySystem
  | tryMinimal
  | verifyNav
  | quitAfterVerifyFail
deriving DecidableEq

/-- `DriverFactory._create_chrome_driver` (src/utils/driver_factory.py lines
70-199), with its nested `try/except` fallback chain: method 1 is the managed
install, method 2 clears the driver cache and reinstalls, method 3 uses the
system chromedriver, method 4 retries the managed install with minimal
options and raises when it too fails.  The unreachable `driver is None` check
of line 181 coincides with that raise.  After a successful launch the driver
is verified by navigating to `about:blank`; on verification failure the
driver is quit and an exception is raised. -/
def create_chrome_driver (env : ChromeEnv) :
    Except Err Handle × List ChromeStep :=
  let launched : Option Handle × List ChromeStep :=
    match env.managed1 with
    | some i => (some ⟨.chrome, i⟩, [.tryManaged])
    | none =>
      match env.managedAfterCacheClear with
      | some i => (some ⟨.chrome, i⟩, [.tryManaged, .clearCacheRetry])
      | none =>
        match env.systemDriver with
        | some i => (some ⟨.chrome, i⟩, [.tryManaged, .clearCacheRetry, .trySystem])
        | none =>
          match env.managedMinimal with
          | some i =>
            (some ⟨.chrome, i⟩,
             [.tryManaged, .clearCacheRetry, .trySystem, .tryMinimal])
          | none =>
            (none, [.tryManaged, .clearCacheRetry, .trySystem, .tryMinimal])
  match launched with
  | (none, steps) => (.error .allMethodsFailed, steps)
  | (some d, steps) =>
    if env.navOk d.id then (.ok d, steps ++ [.verifyNav])
    else (.error .notFunctional, steps ++ [.verifyNav, .quitAfterVerifyFail])

/-- First successful strategy of an ordered list, together with the labels of
every strategy attempted (all strategies up to and including the successful
one). -/
def first_success : List (Option Nat × ChromeStep) → Option Nat × List ChromeStep
  | [] => (none, [])
  | (o, lbl) :: rest =>
    match o with
    | some i => (some i, [lbl])
    | none =>
      let r := first_success rest
      (r.1, lbl :: r.2)

/-- The Chrome bootstrap as the spec describes it: an explicit ordered list of
fallback strategies tried in sequence, followed by a smoke-navigation
verification that tears the session down on failure. -/
def chrome_fallback_spec (env : ChromeEnv) :
    Except Err Handle × List ChromeStep :=
  let strategies : List (Option Nat × ChromeStep) :=
    [(env.managed1, .tryManaged),
     (env.managedAfterCacheClear, .clearCacheRetry),
     (env.systemDriver, .trySystem),
     (env.managedMinimal, .tryMinimal)]
  let r := first_success strategies
  match r.1 with
  | none => (.error .allMethodsFailed, r.2)
  | some i =>
    if env.navOk i then (.ok ⟨.chrome, i⟩, r.2 ++ [.verifyNav])
    else (.error .notFunctional, r.2 ++ [.verifyNav, .quitAfterVerifyFail])

/-- Environment for the whole factory: the Chrome strategies plus the launch
outcomes of the other browsers and the host platform. -/
structure FactoryEnv where
  chromeEnv : ChromeEnv
  geckoLaunch : Option Nat
  edgeLaunch : Option Nat
  safariLaunch : Option Nat
  osPosix : Bool

/-- `DriverFactory._create_firefox_driver` (lines 201-224): managed install
plus launch; any failure propagates. -/
def create_firefox_driver (env : FactoryEnv) : Except Err Handle :=
  match env.geckoLaunch with
  | some i => .ok ⟨.firefox, i⟩
  | none => .error .launchFailed

/-- `DriverFactory._create_edge_driver` (lines 226-249). -/
def create_edge_driver (env : FactoryEnv) : Except Err Handle :=
  match env.edgeLaunch with
  | some i => .ok ⟨.edge, i⟩
  | none => .error .launchFailed

/-- `DriverFactory._create_safari_driver` (lines 251-264): raises unless the
host is posix. -/
def create_safari_driver (env : FactoryEnv) : Except Err Handle :=
  if env.osPosix then
    match env.safariLaunch with
    | some i => .ok ⟨.safari, i⟩
    | none => .error .launchFailed
  else .error .safariNotSupported

/-- `DriverFactory.create_driver` (lines 26-68): default the browser name to
`Config.DEFAULT_BROWSER`, lowercase it, dispatch to the per-browser creator;
on any failure, when the requested browser was chrome, attempt Edge as a
fallback browser and return it if it launches, else re-raise. -/
def create_driver (env : FactoryEnv) (browser_name : Option String)
    (_headless : Option Bool) : Except Err Handle :=
  let n := str_lower (browser_name.getD Config.DEFAULT_BROWSER)
  let core : Except Err Handle :=
    if n = "chrome" then (create_chrome_driver env.chromeEnv).1
    else if n = "firefox" then create_firefox_driver env
    else if n = "edge" then create_edge_driver env
    else if n = "safari" then create_safari_driver env
    else .error (.unsupportedBrowser n)
  match core with
  | .ok d => .ok d
  | .error e =>
    if n = "chrome" then
      match create_edge_driver env with
      | .ok d => .ok d
      | .error _ => .error e
    else .error e

/-- The browser kind a request resolves to, if supported. -/
def requested_kind (browser_name : Option String) : Option BrowserKind :=
  let n := str_lower (browser_name.getD Config.DEFAULT_BROWSER)
  if n = "chrome" then some .chrome
  else if n = "firefox" then some .firefox
  else if n = "edge" then some .edge
  else if n = "safari" then some .safari
  else none

/-- Side effects observable during teardown. -/
inductive FactoryEvent
  | quitCalled (h : Handle)
  | quitFailed (h : Handle)
  | mkdirs (path : String)
  | screenshotSaved (path : String)
deriving DecidableEq

/-- Environment for teardown: whether quitting a given process succeeds,
whether `os.makedirs` succeeds on a directory, whether saving a screenshot
succeeds. -/
structure TeardownEnv where
  quitOk : Nat → Bool
  makedirsOk : String → Bool
  saveOk : Nat → String → Bool

/-- `DriverFactory.quit_driver` (lines 266-274): quit inside a catch-all; a
`None` handle or a failing quit is only logged. -/
def quit_driver (env : TeardownEnv) (driver : Option Handle) :
    Except Err Unit × List FactoryEvent :=
  match driver with
  | none => (.ok (), [])
  | some h =>
    if env.quitOk h.id then (.ok (), [.quitCalled h])
    else (.ok (), [.quitCalled h, .quitFailed h])

/-- `os.path.dirname` for forward-slash paths: everything before the last
separator — `"/"` for a root-level absolute path such as `"/b"` — and the
empty string when there is no separator. -/
def os_path_dirname (p : String) : String :=
  let d := String.intercalate "/" (p.splitOn "/").dropLast
  if d = "" && p.startsWith "/" then "/" else d

/-- `DriverFactory.take_screenshot` (lines 276-289): create the intermediate
directories of the target path, save the screenshot, return the path; any
failure (including `os.makedirs` on the empty dirname of a bare filename, or
a `None` driver) is caught and yields `None`. -/
def take_screenshot (env : TeardownEnv) (driver : Option Handle)
    (file_path : String) : Except Err (Option String) × List FactoryEvent :=
  let dir := os_path_dirname file_path
  if dir = "" || !env.makedirsOk dir then (.ok none, [])
  else
    match driver with
    | none => (.ok none, [.mkdirs dir])
    | some h =>
      if env.saveOk h.id file_path then
        (.ok (some file_path), [.mkdirs dir, .screenshotSaved file_path])
      else (.ok none, [.mkdirs dir])

/-! ## The poll loop of the wait primitive -/

/-- Outcome of one poll loop: the elapsed time at which control returns,
either with the condition met or with a timeout failure. -/
inductive PollOutcome
  | success (t : Nat)
  | timedOut (t : Nat)
deriving DecidableEq

/-- Modelled from the spec: the poll loop of the underlying wait primitive
(the browser-automation library's `WebDriverWait`, which is not part of this
repository) — each operation "polls the browser at a short fixed interval
until a condition is met or the timeout elapses, at which point it fails with
a WaitTimeout error".  `cond` is sampled at the current instant; on failure
the loop sleeps one poll interval `p` and gives up as soon as the deadline
`T` has passed.  `fuel` bounds the recursion and is chosen large enough. -/
def poll_until_aux (cond : Nat → Bool) (T p : Nat) : Nat → Nat → PollOutcome
  | fuel, t =>
    if cond t then .success t
    else
      let t1 := t + p
      if T < t1 then .timedOut t1
      else
        match fuel with
        | 0 => .timedOut t1
        | fuel + 1 => poll_until_aux cond T p fuel t1

/-- The poll loop started at instant 0 with enough fuel. -/
def poll_until (cond : Nat → Bool) (T p : Nat) : PollOutcome :=
  poll_until_aux cond T p (T + 1) 0

/-! ## Value characterizations of the page-object queries -/

/-- The designated notification element is found, displayed and has
non-blank text. -/
def notification_check (w : World) (pg : Nat) : Bool :=
  match driver_find_elements w pg 0 NOTIFICATION_MESSAGE with
  | [] => false
  | e :: _ => e.displayed && str_strip e.text != ""

/-- Some element matching one of the fixed error patterns is displayed with
non-blank text. -/
def pattern_scan (w : World) (pg : Nat) : Bool :=
  error_patterns.any fun p =>
    (driver_find_elements w pg 0 (By.xpath, p)).any fun e =>
      e.displayed && str_strip e.text != ""

/-- The notification element is displayed and its trimmed, lowercased text
contains a success keyword. -/
def success_message_check (w : World) (pg : Nat) : Bool :=
  match driver_find_elements w pg 0 NOTIFICATION_MESSAGE with
  | [] => false
  | e :: _ =>
    e.displayed && success_keywords.any fun k => containsStr (str_lower (str_strip e.text)) k

/-- The product logo is found and displayed. -/
def logo_check (w : World) (pg : Nat) : Bool :=
  match driver_find_elements w pg 0 PRODUCT_LOGO with
  | [] => false
  | e :: _ => e.displayed

/-- All three login form elements are found and displayed. -/
def form_check (w : World) (pg : Nat) : Bool :=
  match driver_find_elements w pg 0 USERNAME_INPUT with
  | [] => false
  | u :: _ =>
    match driver_find_elements w pg 0 PASSWORD_INPUT with
    | [] => false
    | p :: _ =>
      match driver_find_elements w pg 0 LOGIN_BUTTON with
      | [] => false
      | b :: _ => u.displayed && p.displayed && b.displayed

/-- The notification element's text, or the empty string when it is absent. -/
def notif_text (w : World) (pg : Nat) : String :=
  match driver_find_elements w pg 0 NOTIFICATION_MESSAGE with
  | [] => ""
  | e :: _ => e.text

/-- The username field's value attribute, or the empty string. -/
def username_value (w : World) (pg : Nat) : String :=
  match driver_find_elements w pg 0 USERNAME_INPUT with
  | [] => ""
  | e :: _ => e.attr "value"

/-- The password field's value attribute, or the empty string. -/
def password_value (w : World) (pg : Nat) : String :=
  match driver_find_elements w pg 0 PASSWORD_INPUT with
  | [] => ""
  | e :: _ => e.attr "value"

/-- What `logout` reports: the first logout control is found and its click
succeeds, the second control becomes visible within 10 and its click
succeeds, and then the username field becomes visible within 10 on the page
the second click leads to. -/
def logout_outcome (w : World) (pg : Nat) : Bool :=
  match driver_find_elements w pg 0 LOGOUT_BUTTON with
  | [] => false
  | e1 :: _ =>
    if e1.interactOk then
      match first_hit (fun s => visible_now w e1.afterClick s LOGOUT_SECOND_BUTTON) 10 with
      | none => false
      | some e2 =>
        if e2.interactOk then
          (first_hit (fun s => visible_now w e2.afterClick s USERNAME_INPUT) 10).isSome
        else false
    else false

/-- A locator resolves to a non-empty element list whose first element can be
interacted with (clear/type/click succeed on it). -/
def field_ready (w : World) (pg : Nat) (loc : Locator) : Bool :=
  match driver_find_elements w pg 0 loc with
  | [] => false
  | e :: _ => e.interactOk

/-- The marker check `login` ends with: on the page reached by clicking the
login button, the product logo becomes visible within 10. -/
def login_success_check (w : World) (pg : Nat) : Bool :=
  match driver_find_elements w pg 0 LOGIN_BUTTON with
  | [] => false
  | b :: _ => (first_hit (fun s => visible_now w b.afterClick s PRODUCT_LOGO) 10).isSome

/-- The page the remember-me probe leaves the browser on: unchanged when the
checkbox is absent, never becomes clickable, or cannot be clicked (all those
failures are swallowed); the page its click leads to when the click
happens. -/
def remember_me_page (w : World) (pg : Nat) : Nat :=
  match driver_find_elements w pg 0 REMEMBER_ME_CHECKBOX with
  | [] => pg
  | _ :: _ =>
    match first_hit (fun s => clickable_now w pg s REMEMBER_ME_CHECKBOX)
        Config.EXPLICIT_WAIT with
    | none => pg
    | some cb => if cb.interactOk then cb.afterClick else pg

/-- The page `login` is on when it clicks the login button: the page left by
the remember-me probe when the flag is set, the starting page otherwise. -/
def login_landing_page (w : World) (pg : Nat) (remember_me : Bool) : Nat :=
  if remember_me then remember_me_page w pg else pg

/-- The actions the remember-me probe performs: the click of the checkbox
when it happens, nothing otherwise. -/
def remember_me_events (w : World) (pg : Nat) : List Event :=
  match driver_find_elements w pg 0 REMEMBER_ME_CHECKBOX with
  | [] => []
  | _ :: _ =>
    match first_hit (fun s => clickable_now w pg s REMEMBER_ME_CHECKBOX)
        Config.EXPLICIT_WAIT with
    | none => []
    | some cb => if cb.interactOk then [Event.click cb] else []

/-- The pattern scan as the source behaves (spec-shaped, semantic form): some
element of the document is displayed with non-blank text and carries
conventional error/alert styling or contains one of the code's keyword
strings, of which the first is the capitalized `"Invalid"`. -/
def error_scan_spec (w : World) (pg : Nat) : Bool :=
  ((w.page pg).allElemsAt 0).any fun e =>
    e.displayed && str_strip e.text != "" &&
      (e.tag == "div" && containsStr e.className "error" ||
       e.tag == "div" && containsStr e.className "alert" ||
       e.tag == "span" && containsStr e.className "error" ||
       containsStr e.text "Invalid" ||
       containsStr e.text "incorrect" ||
       containsStr e.text "failed")

/-- The pattern scan as the written claim states it: keyword matching for the
lowercase `"invalid"` (together with `"incorrect"` and `"failed"`). -/
def error_scan_claimed (w : World) (pg : Nat) : Bool :=
  ((w.page pg).allElemsAt 0).any fun e =>
    e.displayed && str_strip e.text != "" &&
      (e.tag == "div" && containsStr e.className "error" ||
       e.tag == "div" && containsStr e.className "alert" ||
       e.tag == "span" && containsStr e.className "error" ||
       containsStr e.text "invalid" ||
       containsStr e.text "incorrect" ||
       containsStr e.text "failed")

/-! ## Concrete environments used by witnesses and counterexamples -/

/-- A page with an empty document that never finishes loading. -/
def emptyPage : PageData := ⟨fun _ _ => [], fun _ => [], fun _ => false⟩

/-- A browser whose every page is empty. -/
def w_empty : World := ⟨fun _ => emptyPage⟩

/-- The initial driver state: page 0, no actions performed yet. -/
def st0 : St := ⟨0, []⟩

/-- A healthy, interactable input field on page 0. -/
def inputElem : Elem := ⟨"input", "", true, true, false, "", fun _ => "", true, 0⟩

/-- A login button whose click navigates to page 1. -/
def buttonElem : Elem := ⟨"button", "", true, true, false, "Login", fun _ => "", true, 1⟩

/-- The product-logo marker element. -/
def logoElem : Elem := ⟨"div", "", true, true, false, "logo", fun _ => "", true, 1⟩

/-- A login page carrying the username field, the password field and the
login button. -/
def loginFormPage : PageData :=
  ⟨fun _ loc =>
    if loc = USERNAME_INPUT then [inputElem]
    else if loc = PASSWORD_INPUT then [inputElem]
    else if loc = LOGIN_BUTTON then [buttonElem]
    else [],
   fun _ => [], fun _ => true⟩

/-- The page shown after a successful login: the logo is visible. -/
def loggedInPage : PageData :=
  ⟨fun _ loc => if loc = PRODUCT_LOGO then [logoElem] else [],
   fun _ => [], fun _ => true⟩

/-- A browser showing the login form on page 0 and the logged-in page
elsewhere. -/
def w_login : World := ⟨fun pg => if pg = 0 then loginFormPage else loggedInPage⟩

/-- A clickable remember-me checkbox; clicking it stays on page 0. -/
def checkboxElem : Elem := ⟨"input", "", true, true, false, "", fun _ => "", true, 0⟩

/-- The login form together with a present remember-me checkbox. -/
def loginFormPageCb : PageData :=
  ⟨fun _ loc =>
    if loc = USERNAME_INPUT then [inputElem]
    else if loc = PASSWORD_INPUT then [inputElem]
    else if loc = LOGIN_BUTTON then [buttonElem]
    else if loc = REMEMBER_ME_CHECKBOX then [checkboxElem]
    else [],
   fun _ => [], fun _ => true⟩

/-- A browser showing the login form with a remember-me checkbox on page 0
and the logged-in page elsewhere. -/
def w_login_cb : World :=
  ⟨fun pg => if pg = 0 then loginFormPageCb else loggedInPage⟩

/-- A displayed element whose text contains the lowercase word `invalid` and
no error/alert styling. -/
def invalidTextElem : Elem :=
  ⟨"p", "", true, true, false, "invalid credentials", fun _ => "", true, 0⟩

/-- A browser whose document holds only `invalidTextElem`, with no
notification element. -/
def w_invalid_text : World :=
  ⟨fun _ => ⟨fun _ _ => [], fun _ => [invalidTextElem], fun _ => true⟩⟩

/-- A Chrome environment in which all four launch strategies fail. -/
def chromeAllFail : ChromeEnv := ⟨none, none, none, none, fun _ => true⟩

/-- A factory environment in which Chrome cannot launch but Edge can. -/
def envEdgeFallback : FactoryEnv := ⟨chromeAllFail, none, some 7, none, true⟩

/-- A factory environment in which Firefox launches as process 3. -/
def envFirefox : FactoryEnv := ⟨chromeAllFail, some 3, none, none, true⟩

/-- C10. Every query operation of the login page object is total: whatever
the page state, each boolean query returns `.ok` with a boolean (false on any
internal failure) and each getter returns `.ok` with a string (the empty
string when the relevant element is absent), never propagating an
exception; the state is left untouched. -/
theorem login_page_queries_total (w : World) (st : St) :
    is_error_message_displayed w st =
      (.ok (notification_check w st.pg || pattern_scan w st.pg), st) ∧
    is_success_message_displayed w st = (.ok (success_message_check w st.pg), st) ∧
    is_logged_in w st = (.ok (logo_check w st.pg), st) ∧
    is_login_form_displayed w st = (.ok (form_check w st.pg), st) ∧
    get_error_message w st = (.ok (notif_text w st.pg), st) ∧
    get_username_field_value w st = (.ok (username_value w st.pg), st) ∧
    get_password_field_value w st = (.ok (password_value w st.pg), st) := by
  refine ⟨?_, ?_, ?_, ?_, ?_, ?_, ?_⟩
  · unfold is_error_message_displayed is_error_message_displayed_body
      is_element_present find_element notification_check pattern_scan mbind
    cases h : driver_find_elements w st.pg 0 NOTIFICATION_MESSAGE with
    | nil => simp [h]
    | cons e rest =>
      simp only [h]
      cases hb : (e.displayed && str_strip e.text != "") with
      | true => simp [hb]
      | false => simp [hb]
  · unfold is_success_message_displayed success_message_check find_element mbind
    cases h : driver_find_elements w st.pg 0 NOTIFICATION_MESSAGE <;> simp [h]
  · unfold is_logged_in logo_check find_element
    cases h : driver_find_elements w st.pg 0 PRODUCT_LOGO <;> simp [h]
  · unfold is_login_form_displayed form_check find_element mbind
    cases hu : driver_find_elements w st.pg 0 USERNAME_INPUT with
    | nil => simp [hu]
    | cons u ur =>
      cases hp : driver_find_elements w st.pg 0 PASSWORD_INPUT with
      | nil => simp [hu, hp]
      | cons p pr =>
        cases hb : driver_find_elements w st.pg 0 LOGIN_BUTTON <;>
          simp [hu, hp, hb]
  · unfold get_error_message notif_text find_element
    cases h : driver_find_elements w st.pg 0 NOTIFICATION_MESSAGE <;> simp [h]
  · unfold get_username_field_value username_value find_element
    cases h : driver_find_elements w st.pg 0 USERNAME_INPUT <;> simp [h]
  · unfold get_password_field_value password_value find_element
    cases h : driver_find_elements w st.pg 0 PASSWORD_INPUT <;> simp [h]

/-- C4. Each action helper first waits for its relevant condition, then acts
on the awaited element: `click_element` waits for clickability and clicks;
`enter_text` waits for visibility, clears first exactly when `clear_first`
(whose source default is `True`) and then sends the text; `get_text` and
`get_attribute` wait for visibility before reading.  When the condition is
never met within the timeout the helper raises the wait-timeout error and
performs no action. -/
theorem action_helpers_wait_then_act (w : World) (loc : Locator)
    (txt attribute_name : String) (timeout : Option Nat) (st : St) :
    click_element w loc timeout st =
      (match first_hit (fun s => clickable_now w st.pg s loc)
          (timeout.getD Config.EXPLICIT_WAIT) with
       | some e => elem_click e st
       | none => (.error .timeout, st)) ∧
    enter_text w loc txt true timeout st =
      (match first_hit (fun s => visible_now w st.pg s loc)
          (timeout.getD Config.EXPLICIT_WAIT) with
       | some e => mbind (elem_clear e st) fun _ st2 => elem_send_keys e txt st2
       | none => (.error .timeout, st)) ∧
    enter_text w loc txt false timeout st =
      (match first_hit (fun s => visible_now w st.pg s loc)
          (timeout.getD Config.EXPLICIT_WAIT) with
       | some e => elem_send_keys e txt st
       | none => (.error .timeout, st)) ∧
    get_text w loc timeout st =
      (match first_hit (fun s => visible_now w st.pg s loc)
          (timeout.getD Config.EXPLICIT_WAIT) with
       | some e => (.ok e.text, st)
       | none => (.error .timeout, st)) ∧
    get_attribute w loc attribute_name timeout st =
      (match first_hit (fun s => visible_now w st.pg s loc)
          (timeout.getD Config.EXPLICIT_WAIT) with
       | some e => (.ok (e.attr attribute_name), st)
       | none => (.error .timeout, st)) := by
  refine ⟨?_, ?_, ?_, ?_, ?_⟩
  · unfold click_element wait_for_element_clickable mbind
    cases h : first_hit (fun s => clickable_now w st.pg s loc)
        (timeout.getD Config.EXPLICIT_WAIT) <;> simp [h]
  · unfold enter_text wait_for_element_visible mbind
    cases h : first_hit (fun s => visible_now w st.pg s loc)
        (timeout.getD Config.EXPLICIT_WAIT) <;> simp [h, mbind]
  · unfold enter_text wait_for_element_visible mbind
    cases h : first_hit (fun s => visible_now w st.pg s loc)
        (timeout.getD Config.EXPLICIT_WAIT) <;> simp [h]
  · unfold get_text wait_for_element_visible mbind
    cases h : first_hit (fun s => visible_now w st.pg s loc)
        (timeout.getD Config.EXPLICIT_WAIT) <;> simp [h]
  · unfold get_attribute wait_for_element_visible mbind
    cases h : first_hit (fun s => visible_now w st.pg s loc)
        (timeout.getD Config.EXPLICIT_WAIT) <;> simp [h]

/-- C6. `logout` performs the two-stage click and returns a boolean that is
true exactly when the username field reappears after it; for every session
state — in particular when the logout controls are absent — it returns `.ok`
with a boolean and never raises, so repeated calls on an already-logged-out
session never raise. -/
theorem logout_total_and_characterized (w : World) (st : St) :
    ∃ st1, logout w st = (.ok (logout_outcome w st.pg), st1) := by
  unfold logout logout_outcome find_element mbind check_visible_bool
    wait_for_element_visible elem_click
  cases h1 : driver_find_elements w st.pg 0 LOGOUT_BUTTON with
  | nil => exact ⟨st, by simp [h1]⟩
  | cons e1 r1 =>
    cases hio1 : e1.interactOk with
    | false => exact ⟨st, by simp [h1, hio1]⟩
    | true =>
      cases h2 : first_hit
          (fun s => visible_now w e1.afterClick s LOGOUT_SECOND_BUTTON) 10 with
      | none =>
        exact ⟨⟨e1.afterClick, st.events ++ [Event.click e1]⟩,
          by simp [h1, hio1, h2]⟩
      | some e2 =>
        cases hio2 : e2.interactOk with
        | false =>
          exact ⟨⟨e1.afterClick, st.events ++ [Event.click e1]⟩,
            by simp [h1, hio1, h2, hio2]⟩
        | true =>
          cases h3 : first_hit
              (fun s => visible_now w e2.afterClick s USERNAME_INPUT) 10 with
          | none =>
            exact ⟨⟨e2.afterClick, st.events ++ [Event.click e1, Event.click e2]⟩,
              by simp [h1, hio1, h2, hio2, h3]⟩
          | some e3 =>
            exact ⟨⟨e2.afterClick, st.events ++ [Event.click e1, Event.click e2]⟩,
              by simp [h1, hio1, h2, hio2, h3]⟩

/-- C7. Teardown never raises: `quit_driver` returns normally for every
handle (including `None` and a failing quit, which is merely recorded), and
`take_screenshot` returns normally with either the target path (after having
created the intermediate directories) or `None` on any failure. -/
theorem teardown_never_raises (env : TeardownEnv) (driver : Option Handle)
    (file_path : String) :
    quit_driver env driver =
      (.ok (), match driver with
        | none => []
        | some h =>
          if env.quitOk h.id then [FactoryEvent.quitCalled h]
          else [FactoryEvent.quitCalled h, FactoryEvent.quitFailed h]) ∧
    take_screenshot env driver file_path =
      (.ok (if (os_path_dirname file_path = "" ||
                !env.makedirsOk (os_path_dirname file_path) : Bool)
            then none
            else match driver with
              | none => none
              | some h =>
                if env.saveOk h.id file_path then some file_path else none),
       if (os_path_dirname file_path = "" ||
           !env.makedirsOk (os_path_dirname file_path) : Bool)
       then []
       else match driver with
         | none => [FactoryEvent.mkdirs (os_path_dirname file_path)]
         | some h =>
           if env.saveOk h.id file_path then
             [FactoryEvent.mkdirs (os_path_dirname file_path),
              FactoryEvent.screenshotSaved file_path]
           else [FactoryEvent.mkdirs (os_path_dirname file_path)]) := by
  constructor
  · unfold quit_driver
    cases driver with
    | none => rfl
    | some h => by_cases hq : env.quitOk h.id <;> simp [hq]
  · unfold take_screenshot
    by_cases hd : (os_path_dirname file_path = "" ||
        !env.makedirsOk (os_path_dirname file_path) : Bool) = true
    · simp [hd]
    · simp only [Bool.not_eq_true] at hd
      cases driver with
      | none => simp [hd]
      | some h => by_cases hs : env.saveOk h.id file_path <;> simp [hd, hs]

/-- Shared refinement lemma: the nested `try/except` chain of
`_create_chrome_driver` equals the spec-shaped ordered strategy list with
post-launch verification. -/
theorem create_chrome_driver_eq_spec (env : ChromeEnv) :
    create_chrome_driver env = chrome_fallback_spec env := by
  unfold create_chrome_driver chrome_fallback_spec
  rcases h1 : env.managed1 with _ | i1 <;>
    rcases h2 : env.managedAfterCacheClear with _ | i2 <;>
      rcases h3 : env.systemDriver with _ | i3 <;>
        rcases h4 : env.managedMinimal with _ | i4 <;>
          simp [h1, h2, h3, h4, first_success]

/-- C3. The Chrome launch routine tries the managed install, the
cache-clearing reinstall, the system driver and the minimal-options retry in
this order, each strategy attempted exactly when all earlier ones failed;
after a successful launch it performs the smoke navigation and, if that
fails, quits the driver and raises instead of returning it. -/
theorem chrome_fallback_order_and_verification (env : ChromeEnv) :
    create_chrome_driver env = chrome_fallback_spec env :=
  create_chrome_driver_eq_spec env

/-- Timeout bound of the poll loop, by induction on the fuel: started within
the deadline and with enough fuel, a never-true condition makes the loop
give up strictly after `T` and no later than one poll interval past `T`. -/
theorem poll_until_aux_timeout (cond : Nat → Bool) (T p : Nat)
    (hc : ∀ t, cond t = false) :
    ∀ fuel t, t ≤ T → T < t + (fuel + 1) * p →
      ∃ r, poll_until_aux cond T p fuel t = .timedOut r ∧ T < r ∧ r ≤ T + p := by
  intro fuel
  induction fuel with
  | zero =>
    intro t ht hfuel
    refine ⟨t + p, ?_, ?_, ?_⟩
    · unfold poll_until_aux
      simp only [hc t]
      by_cases hT : T < t + p <;> simp [hT]
    · simpa using hfuel
    · omega
  | succ fuel ih =>
    intro t ht hfuel
    by_cases hT : T < t + p
    · refine ⟨t + p, ?_, hT, by omega⟩
      unfold poll_until_aux
      simp [hc t, hT]
    · have ht1 : t + p ≤ T := by omega
      have hfuel1 : T < (t + p) + (fuel + 1) * p := by
        have : t + (fuel + 1 + 1) * p = (t + p) + (fuel + 1) * p := by ring
        omega
      obtain ⟨r, hr, hr1, hr2⟩ := ih (t + p) ht1 hfuel1
      refine ⟨r, ?_, hr1, hr2⟩
      unfold poll_until_aux
      simp [hc t, hT, hr]

/-- C9. For every timeout `T` and positive poll interval `p`, when the
awaited condition never becomes true the poll loop returns control no
earlier than `T` after it started and no later than `T` plus one poll
interval. -/
theorem poll_returns_within_bounds (cond : Nat → Bool) (T p : Nat)
    (hp : 0 < p) (hc : ∀ t, cond t = false) :
    ∃ r, poll_until cond T p = .timedOut r ∧ T ≤ r ∧ r ≤ T + p := by
  obtain ⟨r, hr, hr1, hr2⟩ :=
    poll_until_aux_timeout cond T p hc (T + 1) 0 (Nat.zero_le T)
      (by nlinarith)
  exact ⟨r, hr, Nat.le_of_lt hr1, hr2⟩

/-- Witness for C9 at a concrete timeout 3 and poll interval 2: the loop
gives up between instants 3 and 5. -/
theorem poll_returns_within_bounds_witness :
    ∃ r, poll_until (fun _ => false) 3 2 = .timedOut r ∧ 3 ≤ r ∧ r ≤ 5 :=
  poll_returns_within_bounds (fun _ => false) 3 2 (by decide) (fun _ => rfl)

/-- When the sampled condition yields nothing at any instant within the
timeout, the wait finds nothing. -/
theorem first_hit_eq_none (check : Nat → Option Elem) (timeout : Nat)
    (h : ∀ s, s ≤ timeout → check s = none) : first_hit check timeout = none := by
  unfold first_hit
  rw [List.findSome?_eq_none_iff]
  intro s hs
  exact h s (Nat.lt_succ_iff.mp (List.mem_range.mp hs))

/-- C5 (counterexample). `wait_for_page_load` is a wait operation of the
interaction layer whose condition never becomes true on a never-ready page,
yet it returns normally instead of raising a wait-timeout error — and its
source default timeout, 30, is not the process-wide `EXPLICIT_WAIT`. -/
theorem wait_for_page_load_swallows_timeout :
    wait_for_page_load w_empty 30 st0 = (.ok (), st0) ∧
    (30 : Nat) ≠ Config.EXPLICIT_WAIT := by
  constructor
  · rfl
  · decide

/-- C5 (amended). The three element waits default a missing timeout to
`Config.EXPLICIT_WAIT` and, when their condition holds at no instant within
the timeout, raise the wait-timeout error to the caller with no action
performed; `wait_for_page_load`, however, catches its timeout and returns
normally (at its source default timeout of 30). -/
theorem waits_amended (w : World) (loc : Locator) (st : St) (t : Nat)
    (hv : ∀ s, s ≤ t → visible_now w st.pg s loc = none)
    (hc : ∀ s, s ≤ t → clickable_now w st.pg s loc = none)
    (hp : ∀ s, s ≤ t → present_now w st.pg s loc = none) :
    wait_for_element_visible w loc none st =
      wait_for_element_visible w loc (some Config.EXPLICIT_WAIT) st ∧
    wait_for_element_clickable w loc none st =
      wait_for_element_clickable w loc (some Config.EXPLICIT_WAIT) st ∧
    wait_for_element_present w loc none st =
      wait_for_element_present w loc (some Config.EXPLICIT_WAIT) st ∧
    wait_for_element_visible w loc (some t) st = (.error .timeout, st) ∧
    wait_for_element_clickable w loc (some t) st = (.error .timeout, st) ∧
    wait_for_element_present w loc (some t) st = (.error .timeout, st) ∧
    wait_for_page_load w 30 st = (.ok (), st) := by
  refine ⟨rfl, rfl, rfl, ?_, ?_, ?_, ?_⟩
  · simp only [wait_for_element_visible, Option.getD_some]
    rw [first_hit_eq_none _ _ hv]
  · simp only [wait_for_element_clickable, Option.getD_some]
    rw [first_hit_eq_none _ _ hc]
  · simp only [wait_for_element_present, Option.getD_some]
    rw [first_hit_eq_none _ _ hp]
  · unfold wait_for_page_load
    simp

/-- Witness for the amended C5 on the empty browser with timeout 5. -/
theorem waits_amended_witness :
    wait_for_element_visible w_empty (By.id, "x") none st0 =
      wait_for_element_visible w_empty (By.id, "x") (some Config.EXPLICIT_WAIT) st0 ∧
    wait_for_element_clickable w_empty (By.id, "x") none st0 =
      wait_for_element_clickable w_empty (By.id, "x") (some Config.EXPLICIT_WAIT) st0 ∧
    wait_for_element_present w_empty (By.id, "x") none st0 =
      wait_for_element_present w_empty (By.id, "x") (some Config.EXPLICIT_WAIT) st0 ∧
    wait_for_element_visible w_empty (By.id, "x") (some 5) st0 = (.error .timeout, st0) ∧
    wait_for_element_clickable w_empty (By.id, "x") (some 5) st0 = (.error .timeout, st0) ∧
    wait_for_element_present w_empty (By.id, "x") (some 5) st0 = (.error .timeout, st0) ∧
    wait_for_page_load w_empty 30 st0 = (.ok (), st0) :=
  waits_amended w_empty (By.id, "x") st0 5
    (fun _ _ => rfl) (fun _ _ => rfl) (fun _ _ => rfl)

/-- C1 (counterexample). On a page where the username field is absent,
`login` raises `NoSuchElementException` instead of returning a boolean. -/
theorem login_raises_when_username_absent :
    login w_empty "user" "pass" false st0 = (.error .noSuchElement, st0) := rfl

/-- The remember-me probe never raises and never changes more than the page
and the action trace: for every state it returns normally, landing on
`remember_me_page` with `remember_me_events` appended (every internal
failure — absent checkbox, never-clickable checkbox, failing click — is
swallowed). -/
theorem click_remember_me_char (w : World) (st : St) :
    click_remember_me w st =
      (.ok (), ⟨remember_me_page w st.pg,
                st.events ++ remember_me_events w st.pg⟩) := by
  unfold click_remember_me is_element_present find_element click_element
    wait_for_element_clickable elem_click mbind remember_me_page
    remember_me_events
  cases hcb : driver_find_elements w st.pg 0 REMEMBER_ME_CHECKBOX with
  | nil => simp [hcb]
  | cons cb0 r0 =>
    cases hch : first_hit (fun s => clickable_now w st.pg s REMEMBER_ME_CHECKBOX)
        Config.EXPLICIT_WAIT with
    | none => simp [hcb, hch]
    | some cb =>
      cases hcbi : cb.interactOk with
      | false => simp [hcb, hch, hcbi]
      | true => simp [hcb, hch, hcbi]

/-- C1 (amended). `login` fills both fields, optionally toggles the
remember-me checkbox, clicks the login button, waits the settle delay and
returns the boolean marker check without raising — provided the username and
password fields are present and interactable and the login button is present
and interactable on the page where it is clicked (the page left by the
remember-me probe when the flag is set; the probe itself never raises,
whether or not the checkbox is present).  A failure in the mandatory steps —
e.g. an absent username field — propagates to the caller. -/
theorem login_amended (w : World) (username password : String)
    (remember_me : Bool) (st : St)
    (h1 : field_ready w st.pg USERNAME_INPUT = true)
    (h2 : field_ready w st.pg PASSWORD_INPUT = true)
    (h3 : field_ready w (login_landing_page w st.pg remember_me)
            LOGIN_BUTTON = true) :
    ∃ st1, login w username password remember_me st =
      (.ok (login_success_check w
        (login_landing_page w st.pg remember_me)), st1) := by
  unfold field_ready at h1 h2 h3
  unfold login_landing_page at h3 ⊢
  unfold login login_success_check enter_username enter_password
    click_login_button check_visible_bool
    wait_for_element_visible find_element elem_clear elem_send_keys elem_click
    mbind
  cases hu : driver_find_elements w st.pg 0 USERNAME_INPUT with
  | nil => rw [hu] at h1; exact absurd h1 (by simp)
  | cons u ur =>
    have h1 : u.interactOk = true := by rw [hu] at h1; exact h1
    cases hpw : driver_find_elements w st.pg 0 PASSWORD_INPUT with
    | nil => rw [hpw] at h2; exact absurd h2 (by simp)
    | cons pw pr =>
      have h2 : pw.interactOk = true := by rw [hpw] at h2; exact h2
      cases remember_me with
      | false =>
        have h3 : (match driver_find_elements w st.pg 0 LOGIN_BUTTON with
          | [] => false
          | e :: _ => e.interactOk) = true := h3
        cases hb : driver_find_elements w st.pg 0 LOGIN_BUTTON with
        | nil => rw [hb] at h3; exact absurd h3 (by simp)
        | cons b br =>
          have h3 : b.interactOk = true := by rw [hb] at h3; exact h3
          cases hfin : first_hit
              (fun s => visible_now w b.afterClick s PRODUCT_LOGO) 10 with
          | none =>
            exact ⟨⟨b.afterClick,
              st.events ++ [Event.clear u] ++ [Event.sendKeys u username]
                ++ [Event.clear pw] ++ [Event.sendKeys pw password]
                ++ [Event.click b]⟩,
              by simp [hu, h1, hpw, h2, hb, h3, hfin]⟩
          | some m =>
            exact ⟨⟨b.afterClick,
              st.events ++ [Event.clear u] ++ [Event.sendKeys u username]
                ++ [Event.clear pw] ++ [Event.sendKeys pw password]
                ++ [Event.click b]⟩,
              by simp [hu, h1, hpw, h2, hb, h3, hfin]⟩
      | true =>
        have h3 : (match driver_find_elements w (remember_me_page w st.pg) 0
              LOGIN_BUTTON with
          | [] => false
          | e :: _ => e.interactOk) = true := h3
        cases hb : driver_find_elements w (remember_me_page w st.pg) 0
            LOGIN_BUTTON with
        | nil => rw [hb] at h3; exact absurd h3 (by simp)
        | cons b br =>
          have h3 : b.interactOk = true := by rw [hb] at h3; exact h3
          cases hfin : first_hit
              (fun s => visible_now w b.afterClick s PRODUCT_LOGO) 10 with
          | none =>
            exact ⟨⟨b.afterClick,
              st.events ++ [Event.clear u] ++ [Event.sendKeys u username]
                ++ [Event.clear pw] ++ [Event.sendKeys pw password]
                ++ remember_me_events w st.pg ++ [Event.click b]⟩,
              by simp [hu, h1, hpw, h2, click_remember_me_char, hb, h3, hfin]⟩
          | some m =>
            exact ⟨⟨b.afterClick,
              st.events ++ [Event.clear u] ++ [Event.sendKeys u username]
                ++ [Event.clear pw] ++ [Event.sendKeys pw password]
                ++ remember_me_events w st.pg ++ [Event.click b]⟩,
              by simp [hu, h1, hpw, h2, click_remember_me_char, hb, h3, hfin]⟩

/-- Witness for the amended C1 on a concrete login form that carries a
present, clickable remember-me checkbox, exercised with the flag both set and
unset; the marker check in fact succeeds. -/
theorem login_amended_witness :
    (∃ st1, login w_login_cb "user" "pass" true st0 =
      (.ok (login_success_check w_login_cb
        (login_landing_page w_login_cb 0 true)), st1)) ∧
    (∃ st1, login w_login_cb "user" "pass" false st0 =
      (.ok (login_success_check w_login_cb
        (login_landing_page w_login_cb 0 false)), st1)) ∧
    driver_find_elements w_login_cb 0 0 REMEMBER_ME_CHECKBOX = [checkboxElem] ∧
    remember_me_page w_login_cb 0 = 0 ∧
    login_success_check w_login_cb 0 = true :=
  ⟨login_amended w_login_cb "user" "pass" true st0 rfl rfl rfl,
   login_amended w_login_cb "user" "pass" false st0 rfl rfl rfl,
   rfl, rfl, rfl⟩

/-- Any handle the Chrome fallback chain returns is a Chrome handle. -/
theorem chrome_spec_kind (cenv : ChromeEnv) (d : Handle)
    (h : (chrome_fallback_spec cenv).1 = .ok d) : d.kind = .chrome := by
  unfold chrome_fallback_spec at h
  rcases hfs : (first_success
      [(cenv.managed1, ChromeStep.tryManaged),
       (cenv.managedAfterCacheClear, ChromeStep.clearCacheRetry),
       (cenv.systemDriver, ChromeStep.trySystem),
       (cenv.managedMinimal, ChromeStep.tryMinimal)]).1 with _ | i
  · simp [hfs] at h
  · by_cases hn : cenv.navOk i
    · simp [hfs, hn] at h
      rw [← h]
    · simp [hfs, hn] at h

/-- Any handle `_create_chrome_driver` returns is a Chrome handle. -/
theorem chrome_driver_kind (cenv : ChromeEnv) (d : Handle)
    (h : (create_chrome_driver cenv).1 = .ok d) : d.kind = .chrome := by
  rw [create_chrome_driver_eq_spec] at h
  exact chrome_spec_kind cenv d h

/-- Any handle `_create_firefox_driver` returns is a Firefox handle. -/
theorem firefox_driver_kind (env : FactoryEnv) (d : Handle)
    (h : create_firefox_driver env = .ok d) : d.kind = .firefox := by
  unfold create_firefox_driver at h
  rcases hg : env.geckoLaunch with _ | i <;> simp [hg] at h
  rw [← h]

/-- Any handle `_create_edge_driver` returns is an Edge handle. -/
theorem edge_driver_kind (env : FactoryEnv) (d : Handle)
    (h : create_edge_driver env = .ok d) : d.kind = .edge := by
  unfold create_edge_driver at h
  rcases he : env.edgeLaunch with _ | i <;> simp [he] at h
  rw [← h]

/-- Any handle `_create_safari_driver` returns is a Safari handle. -/
theorem safari_driver_kind (env : FactoryEnv) (d : Handle)
    (h : create_safari_driver env = .ok d) : d.kind = .safari := by
  unfold create_safari_driver at h
  by_cases hp : env.osPosix <;>
    rcases hs : env.safariLaunch with _ | i <;> simp [hp, hs] at h
  rw [← h]

/-- C2 (counterexample). Requesting a chrome session in an environment where
every Chrome strategy fails but Edge launches returns an Edge handle — a
handle of a different browser kind than requested — instead of raising. -/
theorem create_driver_chrome_returns_edge :
    create_driver envEdgeFallback (some "chrome") none =
      .ok ⟨BrowserKind.edge, 7⟩ ∧
    requested_kind (some "chrome") = some BrowserKind.chrome ∧
    BrowserKind.edge ≠ BrowserKind.chrome := by
  refine ⟨?_, ?_, ?_⟩
  · rfl
  · rfl
  · decide

/-- C2 (amended). Whenever session creation returns a handle, the request
named a supported browser kind and the handle is of that kind — except that a
chrome request may, after its own strategies are exhausted, be answered by
the Edge fallback; when every strategy is exhausted the call raises. -/
theorem create_driver_kind_amended (env : FactoryEnv)
    (browser_name : Option String) (headless : Option Bool) (d : Handle)
    (h : create_driver env browser_name headless = .ok d) :
    ∃ k, requested_kind browser_name = some k ∧
      (d.kind = k ∨ (k = BrowserKind.chrome ∧ d.kind = BrowserKind.edge)) := by
  unfold create_driver at h
  unfold requested_kind
  set n := str_lower (browser_name.getD Config.DEFAULT_BROWSER) with hn
  by_cases hc : n = "chrome"
  · refine ⟨.chrome, by simp [hc], ?_⟩
    rcases hcore : (create_chrome_driver env.chromeEnv).1 with e | d1
    · rw [hc] at h
      simp only [if_pos rfl, hcore] at h
      rcases hedge : create_edge_driver env with e2 | d2
      · simp [hedge] at h
      · simp only [hedge] at h
        right
        have hd : d2 = d := by simpa using h
        exact ⟨rfl, hd ▸ edge_driver_kind env d2 hedge⟩
    · rw [hc] at h
      simp only [if_pos rfl, hcore] at h
      have hd : d1 = d := by simpa using h
      exact Or.inl (hd ▸ chrome_driver_kind env.chromeEnv d1 hcore)
  · by_cases hf : n = "firefox"
    · refine ⟨.firefox, by simp [hc, hf], Or.inl ?_⟩
      simp only [hc, if_neg hc, hf, if_pos rfl] at h
      rcases hff : create_firefox_driver env with e | d1
      · simp [hff] at h
      · simp only [hff] at h
        have hd : d1 = d := by simpa using h
        exact hd ▸ firefox_driver_kind env d1 hff
    · by_cases he : n = "edge"
      · refine ⟨.edge, by simp [hc, hf, he], Or.inl ?_⟩
        simp only [hc, if_neg hc, hf, if_neg hf, he, if_pos rfl] at h
        rcases hee : create_edge_driver env with e | d1
        · simp [hee] at h
        · simp only [hee] at h
          have hd : d1 = d := by simpa using h
          exact hd ▸ edge_driver_kind env d1 hee
      · by_cases hs : n = "safari"
        · refine ⟨.safari, by simp [hc, hf, he, hs], Or.inl ?_⟩
          simp only [hc, if_neg hc, hf, if_neg hf, he, if_neg he, hs,
            if_pos rfl] at h
          rcases hss : create_safari_driver env with e | d1
          · simp [hss] at h
          · simp only [hss] at h
            have hd : d1 = d := by simpa using h
            exact hd ▸ safari_driver_kind env d1 hss
        · exfalso
          simp only [if_neg hc, if_neg hf, if_neg he, if_neg hs] at h
          simp [hc] at h

/-- Witness for the amended C2: a firefox request in an environment where
Firefox launches yields a Firefox handle. -/
theorem create_driver_kind_amended_witness :
    ∃ k, requested_kind (some "firefox") = some k ∧
      ((Handle.mk BrowserKind.firefox 3).kind = k ∨
        (k = BrowserKind.chrome ∧
          (Handle.mk BrowserKind.firefox 3).kind = BrowserKind.edge)) :=
  create_driver_kind_amended envFirefox (some "firefox") none
    ⟨BrowserKind.firefox, 3⟩ (by rfl)

/-- The first fixed pattern resolves to the styled-div filter. -/
theorem dfe_pat_class_error (w : World) (pg t : Nat) :
    driver_find_elements w pg t (By.xpath, errPatClassError) =
      ((w.page pg).allElemsAt t).filter
        (fun e => e.tag == "div" && containsStr e.className "error") := rfl

/-- The second fixed pattern resolves to the alert-div filter. -/
theorem dfe_pat_class_alert (w : World) (pg t : Nat) :
    driver_find_elements w pg t (By.xpath, errPatClassAlert) =
      ((w.page pg).allElemsAt t).filter
        (fun e => e.tag == "div" && containsStr e.className "alert") := rfl

/-- The third fixed pattern resolves to the styled-span filter. -/
theorem dfe_pat_span_error (w : World) (pg t : Nat) :
    driver_find_elements w pg t (By.xpath, errPatSpanError) =
      ((w.page pg).allElemsAt t).filter
        (fun e => e.tag == "span" && containsStr e.className "error") := rfl

/-- The fourth fixed pattern resolves to the `Invalid` keyword filter. -/
theorem dfe_pat_text_invalid (w : World) (pg t : Nat) :
    driver_find_elements w pg t (By.xpath, errPatTextInvalid) =
      ((w.page pg).allElemsAt t).filter
        (fun e => containsStr e.text "Invalid") := rfl

/-- The fifth fixed pattern resolves to the `incorrect` keyword filter. -/
theorem dfe_pat_text_incorrect (w : World) (pg t : Nat) :
    driver_find_elements w pg t (By.xpath, errPatTextIncorrect) =
      ((w.page pg).allElemsAt t).filter
        (fun e => containsStr e.text "incorrect") := rfl

/-- The sixth fixed pattern resolves to the `failed` keyword filter. -/
theorem dfe_pat_text_failed (w : World) (pg t : Nat) :
    driver_find_elements w pg t (By.xpath, errPatTextFailed) =
      ((w.page pg).allElemsAt t).filter
        (fun e => containsStr e.text "failed") := rfl

/-- Scanning a filtered list is scanning the whole list for the
conjunction. -/
theorem list_any_filter {α : Type} (l : List α) (p q : α → Bool) :
    (l.filter p).any q = l.any fun a => p a && q a := by
  induction l with
  | nil => rfl
  | cons a l ih => by_cases h : p a <;> simp [List.filter_cons, h, ih]

/-- A disjunctive scan splits into two scans. -/
theorem list_any_or {α : Type} (l : List α) (p q : α → Bool) :
    (l.any fun a => p a || q a) = (l.any p || l.any q) := by
  induction l with
  | nil => rfl
  | cons a l ih => cases hp : p a <;> cases hq : q a <;> simp [hp, hq, ih]

/-- The pattern scan of the source (string patterns interpreted by the
driver) equals its semantic, per-element form. -/
theorem pattern_scan_eq_spec (w : World) (pg : Nat) :
    pattern_scan w pg = error_scan_spec w pg := by
  unfold pattern_scan error_scan_spec error_patterns
  simp only [List.any_cons, List.any_nil,
    dfe_pat_class_error, dfe_pat_class_alert, dfe_pat_span_error,
    dfe_pat_text_invalid, dfe_pat_text_incorrect, dfe_pat_text_failed,
    list_any_filter, Bool.and_or_distrib_left, list_any_or, Bool.or_false]
  simp [Bool.and_comm, Bool.and_left_comm, Bool.and_assoc, Bool.or_assoc]

/-- Shared characterization: the error-detection query returns normally with
the notification check or else the pattern scan. -/
theorem is_error_eq (w : World) (st : St) :
    is_error_message_displayed w st =
      (.ok (notification_check w st.pg || pattern_scan w st.pg), st) := by
  unfold is_error_message_displayed is_error_message_displayed_body
    is_element_present find_element notification_check pattern_scan mbind
  cases h : driver_find_elements w st.pg 0 NOTIFICATION_MESSAGE with
  | nil => simp [h]
  | cons e rest =>
    simp only [h]
    cases hb : (e.displayed && str_strip e.text != "") with
    | true => simp [hb]
    | false => simp [hb]

/-- C8 (amended). Error detection first inspects the designated notification
element and reports true when it is displayed with non-blank text; only
failing that does it scan the fixed list of patterns for conventional
error/alert styling and for the keyword strings of the source — `"Invalid"`
(capitalized, matched case-sensitively), `"incorrect"` and `"failed"` — in
displayed element text, reporting true exactly when some such element is
displayed with non-blank text. -/
theorem error_detection_amended (w : World) (st : St) :
    is_error_message_displayed w st =
      (.ok (notification_check w st.pg || error_scan_spec w st.pg), st) := by
  rw [is_error_eq, pattern_scan_eq_spec]

/-- C8 (counterexample). A displayed element whose text contains the
lowercase keyword `invalid` (with no notification element and no error/alert
styling) is not detected by the code, although the claimed keyword scan
(lowercase `"invalid"`) matches it. -/
theorem error_detection_keyword_case :
    is_error_message_displayed w_invalid_text st0 = (.ok false, st0) ∧
    error_scan_claimed w_invalid_text 0 = true ∧
    invalidTextElem.displayed = true ∧
    containsStr invalidTextElem.text "invalid" = true ∧
    (str_strip invalidTextElem.text != "") = true := by
  refine ⟨rfl, by decide, by decide, by decide, by decide⟩
